import Mathlib

/-!
Shallow embedding of `src/server.py` (the receiving side of the
clipboard/screenshot relay).  The server keeps one shared mutable record
`last_result = {'text','raw','meta','timestamp'}` guarded by a lock, an LLM
adapter `call_llm`, and a single POST handler `process` that validates the
payload, extracts text (optionally via OCR for images), builds a prompt,
calls the LLM and overwrites `last_result`.

External effects (the OpenAI client constructor, `responses.create`,
base64 decoding plus `PIL.Image.open`, and the OCR engine) are modelled as
oracle functions carried in an `Env` record; a raised Python exception is an
`Except.error` carrying the exception's message string.  Strings are Lean
`String`s; Python `s[:n]` is `String.take s n` (both count characters).
-/

namespace DoubleAdviser

/-- Result of decoding image bytes: `len(img_bytes)`, `img.size`, `img.mode`
as observed by the handler after `base64.b64decode` + `Image.open`. -/
structure ImgInfo where
  byteLen : Nat
  width : Nat
  height : Nat
  mode : String
  deriving DecidableEq, Repr

/-- The JSON body accepted by `/process`: `{type, text?, image_b64?, meta?}`.
A missing key is `none`; `payload.get(k, '')` is `Option.getD · ""`.
The `meta` value is modelled as an optional string (the handler only ever
interpolates it into text or stores it). -/
structure Payload where
  type? : Option String
  text? : Option String
  imageB64? : Option String
  meta? : Option String
  deriving DecidableEq, Repr

/-- The shared mutable record `last_result` (the only server-side state the
handler mutates).  At process start:
`{'text': '', 'raw': '', 'meta': None, 'timestamp': None}`. -/
structure LastResult where
  text : String
  raw : String
  meta : Option String
  timestamp : Option Nat
  deriving DecidableEq, Repr

/-- Initial value of `last_result` (server.py line 44). -/
def initState : LastResult :=
  { text := "", raw := "", meta := none, timestamp := none }

/-- Environment: startup configuration plus oracles for the external calls
made by the handler.  `mkClient` is the `OpenAI(...)` constructor (which can
raise when the key is unusable), `create` is `client.responses.create`
returning `resp.output_text`, `decodeImg` is
`base64.b64decode` followed by `PIL.Image.open` (either step raising is one
`Except.error` with the exception text), `ocr` is
`pytesseract.image_to_string`. -/
structure Env where
  haveOcr : Bool
  useOpenai : Bool
  apiKey : Option String
  mkClient : Option String → Except String Unit
  create : String → Except String String
  decodeImg : String → Except String ImgInfo
  ocr : ImgInfo → String

/-- Python string slicing `s[:n]`: the first `n` characters of `s` (all of
`s` when it is shorter). -/
def pyTake (s : String) (n : Nat) : String := ⟨s.data.take n⟩

/-- What the hosted-API variant hands to `client.responses.create` as the
`input` argument (server.py line 74): the prompt, whole and untruncated. -/
def hostedInput (prompt : String) : String := prompt

/-- The local fallback branch of `call_llm` (server.py line 89): a
deterministic echo of the first 2000 characters of the prompt. -/
def localEcho (prompt : String) : String :=
  "[LOCAL LLM MODE] Echoing prompt (implement your local LLM call):\n\n"
    ++ pyTake prompt 2000

/-- `call_llm` (server.py lines 56–89).  The hosted branch runs inside
`try/except Exception`: a raise from the client constructor or from
`responses.create` becomes the string `LLM call failed: <e>`; a missing or
empty `OPENAI_API_KEY` observed after construction returns the
`OpenAI API key not set` message; otherwise the call's `output_text` is
returned.  The non-OpenAI branch is the local echo. -/
def call_llm (useOpenai : Bool) (apiKey : Option String)
    (mkClient : Option String → Except String Unit)
    (create : String → Except String String) (prompt : String) : String :=
  if useOpenai then
    match mkClient apiKey with
    | .error e => "LLM call failed: " ++ e
    | .ok _ =>
      if (apiKey.getD "") = "" then
        "OpenAI API key not set (set OPENAI_API_KEY)"
      else
        match create (hostedInput prompt) with
        | .error e => "LLM call failed: " ++ e
        | .ok out => out
  else
    localEcho prompt

/-- Python `f'{x}'` on the `meta` value: `None` prints as `"None"`. -/
def pyStr (m : Option String) : String :=
  match m with
  | none => "None"
  | some s => s

/-- The fallback prompt template (server.py line 139), used when
`extracted_text` is falsy. -/
def fallbackPrompt (meta : Option String) : String :=
  "No text found. Raw payload meta: " ++ pyStr meta
    ++ "\nYou can summarize the raw content or explain what to do next."

/-- The normal prompt template (server.py line 141). -/
def normalPrompt (extracted : String) : String :=
  "Process the following input and produce a concise, actionable answer (summary, steps, code, or other); include source if relevant.\n\nInput:\n"
    ++ extracted

/-- Prompt construction (server.py lines 138–141).  Python's
`if not extracted_text` is true exactly for the empty string. -/
def build_prompt (extracted : String) (meta : Option String) : String :=
  if extracted = "" then fallbackPrompt meta else normalPrompt extracted

/-- The `raw` diagnostic string for a decoded image when OCR is available
(server.py line 125): `f'[image {img.size} mode={img.mode}]'`. -/
def imgRawSize (img : ImgInfo) : String :=
  "[image (" ++ toString img.width ++ ", " ++ toString img.height
    ++ ") mode=" ++ img.mode ++ "]"

/-- The `raw` diagnostic string when OCR is unavailable (server.py
line 129): `f'[image {len(img_bytes)} bytes]'`. -/
def imgRawBytes (img : ImgInfo) : String :=
  "[image " ++ toString img.byteLen ++ " bytes]"

/-- The text the handler uses in place of OCR output when OCR is
unavailable (server.py line 131): the raw base64 payload embedded into an
"Analyze this screenshot" sentence. -/
def b64AsText (b64 : String) : String :=
  "Analyze this screenshot (base64): " ++ b64

/-- A client-visible JSON error response together with its HTTP status. -/
structure ErrResponse where
  message : String
  status : Nat
  deriving DecidableEq, Repr

/-- The success JSON body as an ordered key/value object:
`{'status': 'ok', 'result_preview': llm_response[:400]}`
(server.py line 153). -/
def okResponse (llmResponse : String) : List (String × String) :=
  [("status", "ok"), ("result_preview", pyTake llmResponse 400)]

/-- The validate-and-extract phase of `process` (server.py lines 103–136):
everything before prompt building.  Returns the pair
`(extracted_text, raw)` on success, or the error response that
short-circuits the handler. -/
def extractStep (env : Env) (p : Payload) :
    Except ErrResponse (String × String) :=
  match p.type? with
  | none => .error ⟨"invalid payload", 400⟩
  | some ct =>
    if ct = "text" then
      let extracted := p.text?.getD ""
      .ok (extracted, extracted)
    else if ct = "image" then
      let b64 := p.imageB64?.getD ""
      if b64 = "" then .error ⟨"no image data", 400⟩
      else
        match env.decodeImg b64 with
        | .error e => .error ⟨"bad image: " ++ e, 400⟩
        | .ok img =>
          if env.haveOcr then .ok (env.ocr img, imgRawSize img)
          else .ok (b64AsText b64, imgRawBytes img)
    else .error ⟨"unknown type", 400⟩

/-- The full `/process` handler (server.py lines 99–153): validate and
extract, build the prompt, call the LLM, overwrite `last_result` under the
lock (with `time.time()` passed in as `now`), and answer.  Errors leave the
state untouched. -/
def process (env : Env) (p : Payload) (now : Nat) (st : LastResult) :
    Except ErrResponse (List (String × String)) × LastResult :=
  match extractStep env p with
  | .error e => (.error e, st)
  | .ok (extracted, raw) =>
    let prompt := build_prompt extracted p.meta?
    let llmResponse := call_llm env.useOpenai env.apiKey env.mkClient
      env.create prompt
    (.ok (okResponse llmResponse),
     { text := llmResponse, raw := raw, meta := p.meta?,
       timestamp := some now })

/-- The prompt that `process` would send to the generation backend for a
payload, when extraction succeeds. -/
def promptOf (env : Env) (p : Payload) : Option String :=
  match extractStep env p with
  | .error _ => none
  | .ok (extracted, _) => some (build_prompt extracted p.meta?)

/-! Concrete fixtures used to evaluate the embedding on explicit inputs. -/

/-- A decoded 1×1 RGB image of 3 raw bytes. -/
def imgSmall : ImgInfo := { byteLen := 3, width := 1, height := 1, mode := "RGB" }

/-- Hosted configuration with a working key and an echoing backend (the
`responses.create` oracle returns its input, so the stored result reveals
the exact prompt that was forwarded); image decoding fails. -/
def envHosted : Env :=
  { haveOcr := false, useOpenai := true, apiKey := some "k",
    mkClient := fun _ => .ok (), create := fun s => .ok s,
    decodeImg := fun _ => .error "cannot identify image file",
    ocr := fun _ => "" }

/-- Hosted configuration without OCR whose image decoding succeeds. -/
def envNoOcr : Env :=
  { haveOcr := false, useOpenai := true, apiKey := some "k",
    mkClient := fun _ => .ok (), create := fun s => .ok s,
    decodeImg := fun _ => .ok imgSmall, ocr := fun _ => "" }

/-- Hosted configuration whose `responses.create` oracle always raises. -/
def envFail : Env :=
  { haveOcr := false, useOpenai := true, apiKey := some "k",
    mkClient := fun _ => .ok (),
    create := fun _ => .error "quota exceeded",
    decodeImg := fun _ => .error "cannot identify image file",
    ocr := fun _ => "" }

/-- A text payload without metadata. -/
def pText (s : String) : Payload :=
  { type? := some "text", text? := some s, imageB64? := none, meta? := none }

/-- A text payload carrying metadata. -/
def pTextM (s m : String) : Payload :=
  { type? := some "text", text? := some s, imageB64? := none, meta? := some m }

/-- An image payload with the given base64 field. -/
def pImg (b64 : String) : Payload :=
  { type? := some "image", text? := none, imageB64? := some b64, meta? := none }

/-- C10: an image submission whose `image_b64` field is missing or empty is
answered with the client error `no image data` (status 400) before any
decoding, backend call or state mutation: for every environment (hence for
every decoder and backend oracle) the handler returns exactly that error
and the shared state is returned unchanged. -/
theorem image_without_data_rejected (env : Env) (p : Payload) (now : Nat)
    (st : LastResult) (htype : p.type? = some "image")
    (hb : p.imageB64? = none ∨ p.imageB64? = some "") :
    process env p now st = (.error ⟨"no image data", 400⟩, st) := by
  rcases hb with h | h <;> simp [process, extractStep, htype, h]

/-- C10 witness: the theorem evaluated at a concrete empty-image payload. -/
theorem image_without_data_rejected_witness :
    process envHosted (pImg "") 5 initState
      = (.error ⟨"no image data", 400⟩, initState) :=
  image_without_data_rejected envHosted (pImg "") 5 initState rfl (Or.inr rfl)

/-- C5: when the image bytes fail to decode, the handler answers with the
client error `bad image: <e>` (status 400) and the shared state is
unchanged; as the statement holds for every environment with that decoder
outcome, the response cannot depend on the generation backend — it is never
called. -/
theorem bad_image_rejected_state_unchanged (env : Env) (p : Payload)
    (now : Nat) (st : LastResult) (b64 e : String)
    (htype : p.type? = some "image") (hb : p.imageB64? = some b64)
    (hne : b64 ≠ "") (hdec : env.decodeImg b64 = .error e) :
    process env p now st = (.error ⟨"bad image: " ++ e, 400⟩, st) := by
  simp [process, extractStep, htype, hb, hne, hdec]

/-- C5 witness: a concrete undecodable image payload is rejected and the
initial state is preserved. -/
theorem bad_image_rejected_state_unchanged_witness :
    process envHosted (pImg "QUJD") 7 initState
      = (.error ⟨"bad image: cannot identify image file", 400⟩, initState) :=
  bad_image_rejected_state_unchanged envHosted (pImg "QUJD") 7 initState
    "QUJD" "cannot identify image file" rfl rfl (by decide) rfl

/-- C6 counterexample: the whitespace-only text `" "` is non-empty, hence
truthy in Python, so the extractor returns it verbatim and the handler
builds the NORMAL prompt — not the `No text found` fallback the claim
requires for whitespace-only text. -/
theorem whitespace_text_not_fallback_counterexample :
    extractStep envHosted (pText " ") = .ok (" ", " ") ∧
    promptOf envHosted (pText " ") = some (normalPrompt " ") ∧
    normalPrompt " " ≠ fallbackPrompt none := by
  refine ⟨rfl, rfl, ?_⟩
  decide

/-- C6 amended: a text submission is extracted verbatim, surrounding
whitespace included, and the fallback prompt path is taken exactly when the
text is the EMPTY string (not when it is merely whitespace-only). -/
theorem text_extracted_verbatim (env : Env) (p : Payload) (s : String)
    (htype : p.type? = some "text") (htext : p.text? = some s) :
    extractStep env p = .ok (s, s) ∧
    promptOf env p
      = some (if s = "" then fallbackPrompt p.meta? else normalPrompt s) := by
  constructor <;>
    simp [extractStep, promptOf, build_prompt, htype, htext]

/-- C6 amended witness: the theorem evaluated at the payload `"hello"`. -/
theorem text_extracted_verbatim_witness :
    extractStep envHosted (pText "hello") = .ok ("hello", "hello") ∧
    promptOf envHosted (pText "hello")
      = some (if "hello" = "" then fallbackPrompt (pText "hello").meta?
              else normalPrompt "hello") :=
  text_extracted_verbatim envHosted (pText "hello") "hello" rfl rfl

/-- C9: prompt building is deterministic — equal extracted text and equal
metadata yield the identical prompt string, and the handler's response does
not depend on the wall-clock reading or on the prior shared state (no
timestamp or random content can reach the prompt). -/
theorem prompt_building_deterministic (env : Env) (p : Payload)
    (x₁ x₂ : String) (m₁ m₂ : Option String) (hx : x₁ = x₂) (hm : m₁ = m₂)
    (t₁ t₂ : Nat) (st₁ st₂ : LastResult) :
    build_prompt x₁ m₁ = build_prompt x₂ m₂ ∧
    (process env p t₁ st₁).1 = (process env p t₂ st₂).1 := by
  subst hx; subst hm
  refine ⟨rfl, ?_⟩
  simp only [process]
  cases extractStep env p <;> simp

/-- C9 witness: determinism evaluated at a concrete extracted text,
metadata, and two distinct clock readings and states. -/
theorem prompt_building_deterministic_witness :
    build_prompt "buy milk" (some "m") = build_prompt "buy milk" (some "m") ∧
    (process envHosted (pText "buy milk") 1 initState).1
      = (process envHosted (pText "buy milk") 99
          { text := "x", raw := "y", meta := some "z",
            timestamp := some 3 }).1 :=
  prompt_building_deterministic envHosted (pText "buy milk") "buy milk"
    "buy milk" (some "m") (some "m") rfl rfl 1 99 initState
    { text := "x", raw := "y", meta := some "z", timestamp := some 3 }

/-- C8: `call_llm` is total and converts every failure mode into a
descriptive string: its result is the backend's `output_text` on success,
or an `LLM call failed: <e>` string for any raised exception, or the
`OpenAI API key not set` message for a missing/empty credential, or the
deterministic local echo — it never propagates an exception. -/
theorem call_llm_never_raises (useOpenai : Bool) (apiKey : Option String)
    (mkClient : Option String → Except String Unit)
    (create : String → Except String String) (prompt : String) :
    (∃ out, create (hostedInput prompt) = .ok out ∧
        call_llm useOpenai apiKey mkClient create prompt = out) ∨
    (∃ e, call_llm useOpenai apiKey mkClient create prompt
        = "LLM call failed: " ++ e) ∨
    call_llm useOpenai apiKey mkClient create prompt
        = "OpenAI API key not set (set OPENAI_API_KEY)" ∨
    call_llm useOpenai apiKey mkClient create prompt = localEcho prompt := by
  cases useOpenai with
  | false =>
    right; right; right
    simp [call_llm]
  | true =>
    cases hmc : mkClient apiKey with
    | error e =>
      right; left
      exact ⟨e, by simp [call_llm, hmc]⟩
    | ok u =>
      by_cases hk : apiKey.getD "" = ""
      · right; right; left
        simp [call_llm, hmc, hk]
      · cases hcr : create (hostedInput prompt) with
        | error e =>
          right; left
          exact ⟨e, by simp [call_llm, hmc, hk, hcr]⟩
        | ok out =>
          left
          refine ⟨out, rfl, ?_⟩
          simp [call_llm, hmc, hk, hcr]

/-- C1 counterexample: with OCR unavailable and a decodable image, the
extractor does NOT return the empty result — it returns the sentence
embedding the raw base64 payload, and that payload appears verbatim inside
the prompt built for the generation backend. -/
theorem no_ocr_b64_in_prompt_counterexample :
    extractStep envNoOcr (pImg "QUJD")
      = .ok (b64AsText "QUJD", imgRawBytes imgSmall) ∧
    b64AsText "QUJD" ≠ "" ∧
    promptOf envNoOcr (pImg "QUJD")
      = some (normalPrompt (b64AsText "QUJD")) ∧
    (∃ pre suf, normalPrompt (b64AsText "QUJD")
      = pre ++ ("QUJD" ++ suf)) := by
  refine ⟨rfl, by decide, rfl,
    ⟨"Process the following input and produce a concise, actionable answer (summary, steps, code, or other); include source if relevant.\n\nInput:\nAnalyze this screenshot (base64): ",
     "", ?_⟩⟩
  rfl

/-- C1 amended: when OCR is unavailable, the extractor returns the string
`Analyze this screenshot (base64): <b64>` — the raw base64 payload is
embedded into the text sent to the generation backend, while only the byte
count is kept as the diagnostic `raw` field; the prompt is the normal
template around that sentence. -/
theorem no_ocr_embeds_b64 (env : Env) (p : Payload) (b64 : String)
    (img : ImgInfo) (htype : p.type? = some "image")
    (hb : p.imageB64? = some b64) (hne : b64 ≠ "")
    (hocr : env.haveOcr = false) (hdec : env.decodeImg b64 = .ok img) :
    extractStep env p = .ok (b64AsText b64, imgRawBytes img) ∧
    promptOf env p = some (normalPrompt (b64AsText b64)) := by
  have hne' : b64AsText b64 ≠ "" := by
    intro h
    have h2 := congrArg String.length h
    simp [b64AsText, String.length_append] at h2
    exact absurd h2.1 (by decide)
  constructor <;>
    simp [extractStep, promptOf, build_prompt, htype, hb, hne, hocr, hdec,
      hne']

/-- C1 amended witness: the theorem evaluated at a concrete base64 payload
and a concrete decoded image. -/
theorem no_ocr_embeds_b64_witness :
    extractStep envNoOcr (pImg "Zm9v")
      = .ok (b64AsText "Zm9v", imgRawBytes imgSmall) ∧
    promptOf envNoOcr (pImg "Zm9v")
      = some (normalPrompt (b64AsText "Zm9v")) :=
  no_ocr_embeds_b64 envNoOcr (pImg "Zm9v") "Zm9v" imgSmall rfl rfl
    (by decide) rfl rfl

/-- C2 counterexample: the server keeps no history and assigns no ids.
With an echoing backend the first request's outcome is recorded in
`last_result.text`; after a second completed request the whole shared state
is identical to what processing only the second request from the initial
state yields — the first entry is gone, so after K = 2 completed requests
the retained state cannot exhibit ids 1 and 2: there are no ids and no
second entry at all. -/
theorem no_history_ids_counterexample :
    (process envHosted (pTextM "first" "f1") 1 initState).2.text
      = normalPrompt "first" ∧
    process envHosted (pTextM "second" "s2") 2
        (process envHosted (pTextM "first" "f1") 1 initState).2
      = process envHosted (pTextM "second" "s2") 2 initState ∧
    (process envHosted (pTextM "second" "s2") 2
        (process envHosted (pTextM "first" "f1") 1 initState).2).2.meta
      ≠ some "f1" := by
  refine ⟨rfl, rfl, ?_⟩
  decide

/-- C2 amended: the handler keeps only the single most-recent result — on
any completed (non-error) request the resulting shared state is the same
whatever state was there before, i.e. each request overwrites
`last_result` wholesale and no per-request id or history accumulates. -/
theorem last_result_overwritten (env : Env) (p : Payload) (now : Nat)
    (st st' : LastResult) (r : List (String × String))
    (h : (process env p now st).1 = .ok r) :
    process env p now st = process env p now st' := by
  simp only [process] at h ⊢
  cases hx : extractStep env p with
  | error e => rw [hx] at h; simp at h
  | ok v => obtain ⟨a, b⟩ := v; rfl

/-- C2 amended witness: overwriting evaluated on a concrete request and two
different prior states. -/
theorem last_result_overwritten_witness :
    (process envHosted (pText "a") 4 initState).1
      = .ok (okResponse (normalPrompt "a")) ∧
    process envHosted (pText "a") 4 initState
      = process envHosted (pText "a") 4
          { text := "old", raw := "old", meta := some "o",
            timestamp := some 1 } :=
  ⟨rfl, last_result_overwritten envHosted (pText "a") 4 initState
    { text := "old", raw := "old", meta := some "o", timestamp := some 1 }
    (okResponse (normalPrompt "a")) rfl⟩

/-- C3 counterexample: the success response of a completed request carries
exactly the keys `status` and `result_preview` — no `id` key exists, so the
endpoint does not return the new entry's id. -/
theorem response_has_no_id_counterexample :
    (process envHosted (pText "buy milk") 3 initState).1
      = .ok [("status", "ok"),
             ("result_preview", pyTake (normalPrompt "buy milk") 400)] ∧
    "id" ∉ [("status", "ok"),
            ("result_preview", pyTake (normalPrompt "buy milk") 400)].map
        Prod.fst := by
  refine ⟨rfl, ?_⟩
  decide

/-- C3 amended: on success the endpoint responds with the two-field object
`status = ok` and `result_preview` equal to the first 400 characters of the
recorded result text; no id is included because none is assigned. -/
theorem ok_response_shape (env : Env) (p : Payload) (now : Nat)
    (st : LastResult) (r : List (String × String))
    (h : (process env p now st).1 = .ok r) :
    r = [("status", "ok"),
         ("result_preview", pyTake (process env p now st).2.text 400)] := by
  simp only [process] at h ⊢
  cases hx : extractStep env p with
  | error e => rw [hx] at h; simp at h
  | ok v =>
    obtain ⟨a, b⟩ := v
    rw [hx] at h
    simp [okResponse] at h ⊢
    exact h.symm

/-- C3 amended witness: the response shape evaluated on a concrete
successful request. -/
theorem ok_response_shape_witness :
    [("status", "ok"), ("result_preview", pyTake (normalPrompt "hi") 400)]
      = [("status", "ok"),
         ("result_preview",
          pyTake (process envHosted (pText "hi") 6 initState).2.text 400)] :=
  ok_response_shape envHosted (pText "hi") 6 initState
    [("status", "ok"), ("result_preview", pyTake (normalPrompt "hi") 400)]
    rfl

/-- C4 counterexample: with a backend that always fails, a request still
returns ok and records the failure string, BUT processing a second failing
request leaves the shared state identical to processing only the second
request from scratch — the first failure's record is overwritten, so
history length does not increase by 1 per request (there is no history). -/
theorem backend_failure_overwrites_counterexample :
    (process envFail (pTextM "a" "m1") 1 initState).1
      = .ok (okResponse "LLM call failed: quota exceeded") ∧
    (process envFail (pTextM "a" "m1") 1 initState).2.meta = some "m1" ∧
    process envFail (pTextM "b" "m2") 2
        (process envFail (pTextM "a" "m1") 1 initState).2
      = process envFail (pTextM "b" "m2") 2 initState ∧
    (process envFail (pTextM "b" "m2") 2
        (process envFail (pTextM "a" "m1") 1 initState).2).2.meta
      ≠ some "m1" := by
  refine ⟨rfl, rfl, rfl, ?_⟩
  decide

/-- C4 amended: a backend failure is not client-visible — the request
answers ok and the descriptive string `LLM call failed: <cause>` becomes
the recorded result text in `last_result`; but the record overwrites the
single shared slot, no history of length-per-request exists. -/
theorem backend_failure_recorded (env : Env) (p : Payload) (now : Nat)
    (st : LastResult) (e x r : String)
    (hx : extractStep env p = .ok (x, r))
    (hu : env.useOpenai = true)
    (hmc : env.mkClient env.apiKey = .ok ())
    (hk : ¬ env.apiKey.getD "" = "")
    (hcr : ∀ s, env.create s = .error e) :
    (process env p now st).1 = .ok (okResponse ("LLM call failed: " ++ e)) ∧
    (process env p now st).2.text = "LLM call failed: " ++ e := by
  constructor <;> simp [process, hx, call_llm, hu, hmc, hk, hcr]

/-- C4 amended witness: a concrete always-failing backend still yields an
ok response recording the failure text. -/
theorem backend_failure_recorded_witness :
    (process envFail (pTextM "a" "m1") 9 initState).1
      = .ok (okResponse ("LLM call failed: " ++ "quota exceeded")) ∧
    (process envFail (pTextM "a" "m1") 9 initState).2.text
      = "LLM call failed: " ++ "quota exceeded" :=
  backend_failure_recorded envFail (pTextM "a" "m1") 9 initState
    "quota exceeded" "a" "a" rfl rfl rfl (by decide) (fun _ => rfl)

/-- C7 counterexample: the hosted-API variant forwards the whole prompt to
`responses.create` — on a 4000-character prompt it forwards all 4000
characters (an echoing backend returns them all), exceeding any fixed
2000-character bound, so not every backend variant bounds the forwarded
data. -/
theorem hosted_forwards_unbounded_counterexample :
    hostedInput (String.mk (List.replicate 4000 'a'))
      = String.mk (List.replicate 4000 'a') ∧
    (hostedInput (String.mk (List.replicate 4000 'a'))).length = 4000 ∧
    call_llm true (some "k") (fun _ => .ok ()) (fun s => .ok s)
        (String.mk (List.replicate 4000 'a'))
      = String.mk (List.replicate 4000 'a') ∧
    ¬ (hostedInput (String.mk (List.replicate 4000 'a'))).length ≤ 2000 := by
  refine ⟨rfl, ?_, rfl, ?_⟩
  · show (List.replicate 4000 'a').length = 4000
    rw [List.length_replicate]
  · show ¬ (List.replicate 4000 'a').length ≤ 2000
    rw [List.length_replicate]
    omega

/-- C7 amended: only the local fallback variant bounds what it uses of the
prompt — it echoes exactly the first 2000 characters (a prefix of length at
most 2000) — while the hosted variant forwards the entire prompt to the
backend unchanged, with no fixed maximum. -/
theorem forwarding_bound_local_only (prompt : String) :
    hostedInput prompt = prompt ∧
    localEcho prompt
      = "[LOCAL LLM MODE] Echoing prompt (implement your local LLM call):\n\n"
        ++ pyTake prompt 2000 ∧
    (pyTake prompt 2000).length ≤ 2000 := by
  refine ⟨rfl, rfl, ?_⟩
  show (prompt.data.take 2000).length ≤ 2000
  simp [List.length_take]

end DoubleAdviser
